import Mathlib

/-!
Shallow embedding of the transform-stack and GPU-geometry lifecycle
subsystem of `src/include/asr.h` (namespace `asr`).

Modelling conventions:
* glm matrices are column-major; `Mat4` stores the four columns `c0..c3`,
  each a `Vec4`.  Scalars are embedded as `ℚ` (exact arithmetic standing in
  for `float`).
* Trigonometric evaluation is abstracted: `rotate_matrix` receives the
  `(cos θ, sin θ)` pair of each Euler angle instead of the angle itself,
  so every definition stays computable; the glm rotation formula is
  otherwise transcribed literally (the source only ever passes the unit
  axes (0,1,0), (1,0,0), (0,0,1), for which `glm::normalize` is the
  identity, so the embedded `glmRotate` takes the axis already normalized).
* `std::stack<glm::mat4>` is a `List Mat4` with the head as the top.
  `top()`/`pop()` on an empty stack are undefined behaviour in C++; the
  embedded operations leave the state unchanged in that case, and every
  theorem that needs a defined top carries a nonemptiness hypothesis.
* GL server state touched by the subsystem (depth test, face culling,
  clear colour, colour/depth buffer contents) is carried explicitly in
  `AsrState`.  `glGenVertexArrays`/`glGenBuffers` are modelled as a fresh
  positive-name allocator (`next_gl_name`), reflecting the GL contract
  that generated names are unused and nonzero.
* `assert(...)` failure is modelled by `Option`: `none` means the
  assertion fired.
-/

namespace Asr

/-- A glm `vec3` over exact scalars. -/
structure Vec3 where
  x : ℚ
  y : ℚ
  z : ℚ
deriving DecidableEq

/-- A glm `vec4` over exact scalars (one matrix column). -/
structure Vec4 where
  x : ℚ
  y : ℚ
  z : ℚ
  w : ℚ
deriving DecidableEq

/-- Componentwise vector addition (glm `operator+`). -/
def Vec4.add (a b : Vec4) : Vec4 :=
  ⟨a.x + b.x, a.y + b.y, a.z + b.z, a.w + b.w⟩

/-- Vector-scalar product (glm `operator*`). -/
def Vec4.smul (a : Vec4) (k : ℚ) : Vec4 :=
  ⟨a.x * k, a.y * k, a.z * k, a.w * k⟩

/-- A glm `mat4`, stored as its four columns. -/
structure Mat4 where
  c0 : Vec4
  c1 : Vec4
  c2 : Vec4
  c3 : Vec4
deriving DecidableEq

/-- Matrix-vector product: the linear combination of the columns of `m`
by the components of `v`. -/
def Mat4.app (m : Mat4) (v : Vec4) : Vec4 :=
  (((m.c0.smul v.x).add (m.c1.smul v.y)).add (m.c2.smul v.z)).add (m.c3.smul v.w)

/-- glm `mat4 operator*`: column `j` of the product is `m1` applied to
column `j` of `m2`. -/
def Mat4.mul (m1 m2 : Mat4) : Mat4 :=
  ⟨m1.app m2.c0, m1.app m2.c1, m1.app m2.c2, m1.app m2.c3⟩

/-- `glm::mat4{1.0f}`: the identity matrix. -/
def identity4 : Mat4 :=
  ⟨⟨1, 0, 0, 0⟩, ⟨0, 1, 0, 0⟩, ⟨0, 0, 1, 0⟩, ⟨0, 0, 0, 1⟩⟩

instance : Inhabited Mat4 := ⟨identity4⟩

/-- `glm::translate(m, v)`: columns 0-2 are copied, column 3 is
`m[0]*v.x + m[1]*v.y + m[2]*v.z + m[3]`. -/
def glmTranslate (m : Mat4) (v : Vec3) : Mat4 :=
  ⟨m.c0, m.c1, m.c2, (((m.c0.smul v.x).add (m.c1.smul v.y)).add (m.c2.smul v.z)).add m.c3⟩

/-- `glm::scale(m, v)`: columns 0-2 are scaled by the components of `v`,
column 3 is copied. -/
def glmScale (m : Mat4) (v : Vec3) : Mat4 :=
  ⟨m.c0.smul v.x, m.c1.smul v.y, m.c2.smul v.z, m.c3⟩

/-- `glm::rotate(m, angle, axis)` for an already-normalized axis, with
`c = cos angle` and `s = sin angle` supplied directly.  Transcribes the
glm 3×3 rotation-block construction and the final column recombination;
the caller (`rotate_matrix`) only ever passes the unit coordinate axes,
for which `glm::normalize` is the identity. -/
def glmRotate (m : Mat4) (c s : ℚ) (axis : Vec3) : Mat4 :=
  let tx := (1 - c) * axis.x
  let ty := (1 - c) * axis.y
  let tz := (1 - c) * axis.z
  let r00 := c + tx * axis.x
  let r01 := tx * axis.y + s * axis.z
  let r02 := tx * axis.z - s * axis.y
  let r10 := ty * axis.x - s * axis.z
  let r11 := c + ty * axis.y
  let r12 := ty * axis.z + s * axis.x
  let r20 := tz * axis.x + s * axis.y
  let r21 := tz * axis.y - s * axis.x
  let r22 := c + tz * axis.z
  ⟨((m.c0.smul r00).add (m.c1.smul r01)).add (m.c2.smul r02),
   ((m.c0.smul r10).add (m.c1.smul r11)).add (m.c2.smul r12),
   ((m.c0.smul r20).add (m.c1.smul r21)).add (m.c2.smul r22),
   m.c3⟩

/-- `glm::ortho(left, right, bottom, top, near, far)` (right-handed,
depth range [-1,1], glm's default configuration). -/
def glmOrtho (l r b t n f : ℚ) : Mat4 :=
  ⟨⟨2 / (r - l), 0, 0, 0⟩,
   ⟨0, 2 / (t - b), 0, 0⟩,
   ⟨0, 0, -2 / (f - n), 0⟩,
   ⟨-((r + l) / (r - l)), -((t + b) / (t - b)), -((f + n) / (f - n)), 1⟩⟩

/-- Entry of `m` at row `i`, column `j` (glm `m[j][i]`), spelled out for
the inverse computation. -/
def Mat4.e (m : Mat4) (i j : Fin 4) : ℚ :=
  match j with
  | 0 => match i with | 0 => m.c0.x | 1 => m.c0.y | 2 => m.c0.z | 3 => m.c0.w
  | 1 => match i with | 0 => m.c1.x | 1 => m.c1.y | 2 => m.c1.z | 3 => m.c1.w
  | 2 => match i with | 0 => m.c2.x | 1 => m.c2.y | 2 => m.c2.z | 3 => m.c2.w
  | 3 => match i with | 0 => m.c3.x | 1 => m.c3.y | 2 => m.c3.z | 3 => m.c3.w

/-- 3×3 minor of `m` obtained by deleting row `i` and column `j`, as the
explicit cofactor-expansion determinant. -/
def Mat4.minor (m : Mat4) (i j : Fin 4) : ℚ :=
  let ri : Fin 4 → Fin 3 → Fin 4 := fun k =>
    match k with
    | 0 => fun t => match t with | 0 => 1 | 1 => 2 | 2 => 3
    | 1 => fun t => match t with | 0 => 0 | 1 => 2 | 2 => 3
    | 2 => fun t => match t with | 0 => 0 | 1 => 1 | 2 => 3
    | 3 => fun t => match t with | 0 => 0 | 1 => 1 | 2 => 2
  let a : Fin 3 → Fin 3 → ℚ := fun p q => m.e (ri i p) (ri j q)
  a 0 0 * (a 1 1 * a 2 2 - a 1 2 * a 2 1)
    - a 0 1 * (a 1 0 * a 2 2 - a 1 2 * a 2 0)
    + a 0 2 * (a 1 0 * a 2 1 - a 1 1 * a 2 0)

/-- Determinant of `m` by cofactor expansion along the first row. -/
def Mat4.det (m : Mat4) : ℚ :=
  m.e 0 0 * m.minor 0 0 - m.e 0 1 * m.minor 0 1
    + m.e 0 2 * m.minor 0 2 - m.e 0 3 * m.minor 0 3

/-- Sign `(-1)^(i+j)` of the cofactor at `(i, j)`. -/
def cofSign (i j : Fin 4) : ℚ :=
  if (i.val + j.val) % 2 = 0 then 1 else -1

/-- Models `glm::inverse` on `mat4`: the classical adjugate inverse
(entry `(i,j)` of the result is `cofactor(j,i) / det`), which is what
glm's cofactor-vector implementation computes in exact arithmetic. -/
def glmInverse (m : Mat4) : Mat4 :=
  let d := m.det
  let inv : Fin 4 → Fin 4 → ℚ := fun i j => cofSign j i * m.minor j i / d
  ⟨⟨inv 0 0, inv 1 0, inv 2 0, inv 3 0⟩,
   ⟨inv 0 1, inv 1 1, inv 2 1, inv 3 1⟩,
   ⟨inv 0 2, inv 1 2, inv 2 2, inv 3 2⟩,
   ⟨inv 0 3, inv 1 3, inv 2 3, inv 3 3⟩⟩

/-- `struct Vertex`: position (3 floats) and colour (4 floats). -/
structure Vertex where
  x : ℚ
  y : ℚ
  z : ℚ
  r : ℚ
  g : ℚ
  b : ℚ
  a : ℚ
deriving DecidableEq

/-- `enum GeometryType`. -/
inductive GeometryType where
  | Points
  | Lines
  | LineLoop
  | LineStrip
  | Triangles
  | TriangleFan
  | TriangleStrip
deriving DecidableEq

/-- `struct GPUGeometry`: primitive type, index count, and the three
device handles (stored as `int` in the source). -/
structure GPUGeometry where
  type : GeometryType
  vertex_count : Nat
  vertex_array_object : Int
  vertex_buffer_object : Int
  index_buffer_object : Int
deriving DecidableEq

/-- `enum MatrixMode`: which of the three stacks `current_matrix_stack`
points at. -/
inductive MatrixMode where
  | Model
  | View
  | Projection
deriving DecidableEq

/-- Contents of a framebuffer attachment: either freshly cleared by
`glClear`, or written to by a draw call. -/
inductive BufferContent where
  | cleared
  | drawn
deriving DecidableEq

/-- The mutable globals of namespace `asr` that the transform-stack /
geometry-lifecycle subsystem reads and writes, plus the GL server state
it drives (depth test, face culling, clear colour, framebuffer
contents, and a fresh-name allocator standing in for `glGen*`). -/
structure AsrState where
  window_width : Int
  window_height : Int
  shader_program : Nat
  position_attribute_location : Int
  color_attribute_location : Int
  time_uniform_location : Int
  mvp_matrix_uniform_location : Int
  current_gpu_geometry : Option GPUGeometry
  model_matrix_stack : List Mat4
  view_matrix_stack : List Mat4
  projection_matrix_stack : List Mat4
  current_matrix_mode : MatrixMode
  rendering_start_time : Nat
  clear_color : Vec4
  depth_test_enabled : Bool
  face_culling_enabled : Bool
  color_buffer : BufferContent
  depth_buffer : BufferContent
  next_gl_name : Nat
deriving DecidableEq

/-- The state at namespace-scope initialization: 500×500 window, zero
program, `-1` location sentinels, no geometry selected, all three
`std::stack` default-constructed (empty), `current_matrix_stack`
pointing at the model stack, GL context defaults (depth test and face
culling disabled). -/
def initialAsrState : AsrState where
  window_width := 500
  window_height := 500
  shader_program := 0
  position_attribute_location := -1
  color_attribute_location := -1
  time_uniform_location := -1
  mvp_matrix_uniform_location := -1
  current_gpu_geometry := none
  model_matrix_stack := []
  view_matrix_stack := []
  projection_matrix_stack := []
  current_matrix_mode := MatrixMode.Model
  rendering_start_time := 0
  clear_color := ⟨0, 0, 0, 0⟩
  depth_test_enabled := false
  face_culling_enabled := false
  color_buffer := BufferContent.cleared
  depth_buffer := BufferContent.cleared
  next_gl_name := 0

/-- The stack `current_matrix_stack` currently points at. -/
def currentStack (st : AsrState) : List Mat4 :=
  match st.current_matrix_mode with
  | MatrixMode.Model => st.model_matrix_stack
  | MatrixMode.View => st.view_matrix_stack
  | MatrixMode.Projection => st.projection_matrix_stack

/-- Write back through the `current_matrix_stack` pointer. -/
def setCurrentStack (st : AsrState) (l : List Mat4) : AsrState :=
  match st.current_matrix_mode with
  | MatrixMode.Model => { st with model_matrix_stack := l }
  | MatrixMode.View => { st with view_matrix_stack := l }
  | MatrixMode.Projection => { st with projection_matrix_stack := l }

/-- `set_matrix_mode`: repoints `current_matrix_stack`; no stack contents
change. -/
def set_matrix_mode (mode : MatrixMode) (st : AsrState) : AsrState :=
  { st with current_matrix_mode := mode }

/-- Shared shape of `translate_matrix`/`rotate_matrix`/`scale_matrix`/
`load_matrix`: read `top()`, compute, `pop()`, `push(result)` — i.e.
replace the top of the current stack.  `top()`/`pop()` on an empty stack
are UB; modelled as no change. -/
def replaceTop (st : AsrState) (f : Mat4 → Mat4) : AsrState :=
  match currentStack st with
  | [] => st
  | m :: rest => setCurrentStack st (f m :: rest)

/-- `translate_matrix`. -/
def translate_matrix (v : Vec3) (st : AsrState) : AsrState :=
  replaceTop st (fun m => glmTranslate m v)

/-- `rotate_matrix`: composes, onto the current top, the rotation about
(0,1,0) by the Euler y angle, then about (1,0,0) by the x angle, then
about (0,0,1) by the z angle, in exactly that source order.  Each angle
is supplied as its `(cos, sin)` pair. -/
def rotate_matrix (cx sx cy sy cz sz : ℚ) (st : AsrState) : AsrState :=
  replaceTop st (fun m =>
    glmRotate (glmRotate (glmRotate m cy sy ⟨0, 1, 0⟩) cx sx ⟨1, 0, 0⟩) cz sz ⟨0, 0, 1⟩)

/-- `scale_matrix`. -/
def scale_matrix (v : Vec3) (st : AsrState) : AsrState :=
  replaceTop st (fun m => glmScale m v)

/-- `load_matrix`: `pop()` then `push(matrix)` on the current stack. -/
def load_matrix (mx : Mat4) (st : AsrState) : AsrState :=
  replaceTop st (fun _ => mx)

/-- `load_identity_matrix`. -/
def load_identity_matrix (st : AsrState) : AsrState :=
  load_matrix identity4 st

/-- The aspect ratio `float(window_width) / float(window_height)`. -/
def aspect (st : AsrState) : ℚ :=
  (st.window_width : ℚ) / (st.window_height : ℚ)

/-- `load_orthographic_projection_matrix`: symmetric-zoom bounds scaled
by the window aspect ratio, loaded through `load_matrix`. -/
def load_orthographic_projection_matrix (zoom near_plane far_plane : ℚ) (st : AsrState) : AsrState :=
  let a := aspect st
  let l := -(zoom * a)
  let r := zoom * a
  let b := -zoom
  let t := zoom
  load_matrix (glmOrtho l r b t near_plane far_plane) st

/-- `push_matrix`: duplicates the current top (`top()` then `push`);
`top()` on an empty stack is UB, modelled as no change. -/
def push_matrix (st : AsrState) : AsrState :=
  match currentStack st with
  | [] => st
  | m :: rest => setCurrentStack st (m :: m :: rest)

/-- `pop_matrix`: `pop()`, then if the stack became empty, push the
identity.  `pop()` on an empty stack is UB, modelled as no change. -/
def pop_matrix (st : AsrState) : AsrState :=
  match currentStack st with
  | [] => st
  | _ :: rest => setCurrentStack st (if rest.isEmpty then [identity4] else rest)

/-- The `while (!stack.empty()) stack.pop();` loops of
`prepare_for_es2_rendering`. -/
def drainStack : List Mat4 → List Mat4
  | [] => []
  | _ :: rest => drainStack rest

/-- `prepare_for_es2_rendering` (begin_session): sets the clear colour,
drains each of the three stacks and pushes one identity, and records
the rendering start time (`now` stands for
`std::chrono::system_clock::now()`).  The `glViewport` /
`glEnable(GL_PROGRAM_POINT_SIZE)` calls touch device state outside this
model.  Note: no call here touches the depth-test or face-culling
state. -/
def prepare_for_es2_rendering (now : Nat) (st : AsrState) : AsrState :=
  { st with
    clear_color := ⟨0, 0, 0, 0⟩
    model_matrix_stack := identity4 :: drainStack st.model_matrix_stack
    view_matrix_stack := identity4 :: drainStack st.view_matrix_stack
    projection_matrix_stack := identity4 :: drainStack st.projection_matrix_stack
    rendering_start_time := now }

/-- `prepare_to_render_es2_frame` (begin_frame):
`glClear(GL_COLOR_BUFFER_BIT | GL_DEPTH_BUFFER_BIT)`. -/
def prepare_to_render_es2_frame (st : AsrState) : AsrState :=
  { st with
    color_buffer := BufferContent.cleared
    depth_buffer := BufferContent.cleared }

/-- `enable_depth_test`. -/
def enable_depth_test (st : AsrState) : AsrState :=
  { st with depth_test_enabled := true }

/-- `disable_depth_test`. -/
def disable_depth_test (st : AsrState) : AsrState :=
  { st with depth_test_enabled := false }

/-- `enable_face_culling`. -/
def enable_face_culling (st : AsrState) : AsrState :=
  { st with face_culling_enabled := true }

/-- `disable_face_culling`. -/
def disable_face_culling (st : AsrState) : AsrState :=
  { st with face_culling_enabled := false }

/-- `destroy_es2_shader_program`: zeroes the program handle and resets
the position, colour and time locations to the `-1` sentinel.  The
source does NOT reset `mvp_matrix_uniform_location`. -/
def destroy_es2_shader_program (st : AsrState) : AsrState :=
  { st with
    shader_program := 0
    position_attribute_location := -1
    color_attribute_location := -1
    time_uniform_location := -1 }

/-- `generate_es2_gpu_geometry`: records type and index count, then
obtains a vertex-array object, a vertex buffer and an index buffer from
the device.  `glGenVertexArrays`/`glGenBuffers` are modelled as a
fresh-name allocator returning successive positive names (the GL
contract: a generated name is previously unused, and 0 is never
generated).  Vertex/index payload upload is device state outside this
model; `vertex_count` is `indices.size()`. -/
def generate_es2_gpu_geometry (type : GeometryType) (vertices : List Vertex)
    (indices : List Nat) (st : AsrState) : GPUGeometry × AsrState :=
  let vao := st.next_gl_name + 1
  let vbo := st.next_gl_name + 2
  let ibo := st.next_gl_name + 3
  let _ := vertices
  (⟨type, indices.length, (vao : Int), (vbo : Int), (ibo : Int)⟩,
   { st with next_gl_name := st.next_gl_name + 3 })

/-- `set_es2_gpu_geometry_current`: stores the (possibly null) pointer;
binds the VAO or unbinds (device state outside this model). -/
def set_es2_gpu_geometry_current (geometry : Option GPUGeometry) (st : AsrState) : AsrState :=
  { st with current_gpu_geometry := geometry }

/-- `destroy_es2_gpu_geometry`: deletes the three device allocations and
resets every handle of the record to 0. -/
def destroy_es2_gpu_geometry (geometry : GPUGeometry) : GPUGeometry :=
  { geometry with
    vertex_array_object := 0
    vertex_buffer_object := 0
    index_buffer_object := 0 }

/-- The MVP value computed inside `render_current_es2_gpu_geometry`:
`projection_matrix_stack.top() * inverse(view_matrix_stack.top()) *
model_matrix_stack.top()`.  `top()` requires a nonempty stack (the
never-empty invariant); `headI` defaults to the identity only on the
UB empty case. -/
def computeMVP (st : AsrState) : Mat4 :=
  let model_matrix := st.model_matrix_stack.headI
  let view_matrix := glmInverse st.view_matrix_stack.headI
  let projection_matrix := st.projection_matrix_stack.headI
  (projection_matrix.mul view_matrix).mul model_matrix

/-- The observable outputs of one `render_current_es2_gpu_geometry`
call: the uniform writes it performed (location and value, `none` when
the sentinel check skipped the write) and the draw submitted. -/
structure DrawInfo where
  time_write : Option (Int × ℚ)
  mvp_write : Option (Int × Mat4)
  draw_type : GeometryType
  draw_count : Nat
deriving DecidableEq

/-- `render_current_es2_gpu_geometry`: asserts a geometry is selected
(`none` = the assertion fired), writes the time uniform when its
location is not `-1` (elapsed milliseconds since the session start,
divided by 1000), writes the MVP uniform when its location is not `-1`,
and draws the selected geometry, marking the colour buffer drawn.
`now` stands for `std::chrono::system_clock::now()` in milliseconds. -/
def render_current_es2_gpu_geometry (now : Nat) (st : AsrState) :
    Option (DrawInfo × AsrState) :=
  match st.current_gpu_geometry with
  | none => none
  | some g =>
    let tW : Option (Int × ℚ) :=
      if st.time_uniform_location ≠ -1 then
        some (st.time_uniform_location, ((now - st.rendering_start_time : Nat) : ℚ) / 1000)
      else none
    let mW : Option (Int × Mat4) :=
      if st.mvp_matrix_uniform_location ≠ -1 then
        some (st.mvp_matrix_uniform_location, computeMVP st)
      else none
    some (⟨tW, mW, g.type, g.vertex_count⟩, { st with color_buffer := BufferContent.drawn })

/-!  Helper lemmas about the current-stack pointer.  -/

lemma currentStack_setCurrentStack (st : AsrState) (l : List Mat4) :
    currentStack (setCurrentStack st l) = l := by
  cases hm : st.current_matrix_mode <;>
    simp [currentStack, setCurrentStack, hm]

/-- All three stacks are nonempty (the never-empty invariant). -/
def stacksNonempty (st : AsrState) : Prop :=
  st.model_matrix_stack ≠ [] ∧ st.view_matrix_stack ≠ [] ∧
    st.projection_matrix_stack ≠ []

instance (st : AsrState) : Decidable (stacksNonempty st) := by
  unfold stacksNonempty; infer_instance

lemma stacksNonempty_setCurrentStack (st : AsrState) (l : List Mat4)
    (hst : stacksNonempty st) (hl : l ≠ []) :
    stacksNonempty (setCurrentStack st l) := by
  obtain ⟨h1, h2, h3⟩ := hst
  cases hm : st.current_matrix_mode <;>
    simp_all [setCurrentStack, stacksNonempty]

/-- A push or pop on the current stack (`set_matrix_mode` switches which
stack that is). -/
inductive StackOp where
  | push
  | pop
  | setMode (mode : MatrixMode)
deriving DecidableEq

/-- Execute one stack operation on the state. -/
def applyStackOp (st : AsrState) : StackOp → AsrState
  | StackOp.push => push_matrix st
  | StackOp.pop => pop_matrix st
  | StackOp.setMode mode => set_matrix_mode mode st

/-- Execute a sequence of stack operations, in order. -/
def runStackOps (st : AsrState) (ops : List StackOp) : AsrState :=
  ops.foldl applyStackOp st

lemma stacksNonempty_applyStackOp (st : AsrState) (op : StackOp)
    (hst : stacksNonempty st) : stacksNonempty (applyStackOp st op) := by
  cases op with
  | push =>
    unfold applyStackOp push_matrix
    cases h : currentStack st with
    | nil => exact hst
    | cons m rest =>
      exact stacksNonempty_setCurrentStack st _ hst (List.cons_ne_nil _ _)
  | pop =>
    unfold applyStackOp pop_matrix
    cases h : currentStack st with
    | nil => exact hst
    | cons m rest =>
      refine stacksNonempty_setCurrentStack st _ hst ?_
      cases rest <;> simp
  | setMode mode =>
    obtain ⟨h1, h2, h3⟩ := hst
    cases mode <;> exact ⟨h1, h2, h3⟩

lemma stacksNonempty_runStackOps (ops : List StackOp) (st : AsrState)
    (hst : stacksNonempty st) : stacksNonempty (runStackOps st ops) := by
  induction ops generalizing st with
  | nil => exact hst
  | cons op rest ih =>
    exact ih (applyStackOp st op) (stacksNonempty_applyStackOp st op hst)

/-- C1.  Stack never-empty invariant: any sequence of push/pop (with
arbitrary interleaved re-selection of the current stack) started from a
state whose three stacks are nonempty keeps all three stacks nonempty,
and `pop_matrix` on a singleton current stack leaves that stack equal
to `[identity4]`. -/
theorem c1_stack_never_empty (ops : List StackOp) (st : AsrState)
    (hst : stacksNonempty st) :
    stacksNonempty (runStackOps st ops) ∧
      (∀ m : Mat4, currentStack st = [m] →
        currentStack (pop_matrix st) = [identity4]) := by
  refine ⟨stacksNonempty_runStackOps ops st hst, ?_⟩
  intro m hm
  unfold pop_matrix
  rw [hm]
  simp [currentStack_setCurrentStack]

/-- C1 witness: a concrete run from the post-session state. -/
theorem c1_stack_never_empty_witness :
    stacksNonempty
      (runStackOps (prepare_for_es2_rendering 0 initialAsrState)
        [StackOp.push, StackOp.push, StackOp.pop, StackOp.pop, StackOp.pop]) ∧
      currentStack (pop_matrix (prepare_for_es2_rendering 0 initialAsrState))
        = [identity4] := by
  have h := c1_stack_never_empty
    [StackOp.push, StackOp.push, StackOp.pop, StackOp.pop, StackOp.pop]
    (prepare_for_es2_rendering 0 initialAsrState) (by decide)
  exact ⟨h.1, h.2 identity4 rfl⟩

/-- C9.  `push_matrix` duplicates the top of the current stack: the
stack grows by exactly one, the new top is value-equal to the previous
top, and the remainder is untouched. -/
theorem c9_push_duplicates_top (st : AsrState) (T : Mat4) (rest : List Mat4)
    (h : currentStack st = T :: rest) :
    currentStack (push_matrix st) = T :: T :: rest ∧
      (currentStack (push_matrix st)).length = (currentStack st).length + 1 ∧
      (currentStack (push_matrix st)).headI = (currentStack st).headI := by
  unfold push_matrix
  rw [h]
  simp [currentStack_setCurrentStack, h]

/-- C9 witness: pushing on the post-session singleton model stack. -/
theorem c9_push_duplicates_top_witness :
    currentStack (push_matrix (prepare_for_es2_rendering 0 initialAsrState))
      = [identity4, identity4] := by
  exact (c9_push_duplicates_top (prepare_for_es2_rendering 0 initialAsrState)
    identity4 [] rfl).1

/-- C7.  `prepare_to_render_es2_frame` (begin_frame) clears the colour
and depth buffers and leaves the three transform stacks, the
current-stack selection, and the current geometry selection unchanged. -/
theorem c7_begin_frame_clears_only (st : AsrState) :
    (prepare_to_render_es2_frame st).color_buffer = BufferContent.cleared ∧
      (prepare_to_render_es2_frame st).depth_buffer = BufferContent.cleared ∧
      (prepare_to_render_es2_frame st).model_matrix_stack = st.model_matrix_stack ∧
      (prepare_to_render_es2_frame st).view_matrix_stack = st.view_matrix_stack ∧
      (prepare_to_render_es2_frame st).projection_matrix_stack = st.projection_matrix_stack ∧
      (prepare_to_render_es2_frame st).current_matrix_mode = st.current_matrix_mode ∧
      (prepare_to_render_es2_frame st).current_gpu_geometry = st.current_gpu_geometry := by
  unfold prepare_to_render_es2_frame
  exact ⟨rfl, rfl, rfl, rfl, rfl, rfl, rfl⟩

/-- C3 counterexample: starting from a state where depth testing and
face culling are enabled, `prepare_for_es2_rendering` leaves both
enabled — it does not set them to disabled as the claim states. -/
theorem c3_counterexample :
    ¬ ((prepare_for_es2_rendering 42
          (enable_depth_test (enable_face_culling initialAsrState))).depth_test_enabled
            = false ∧
       (prepare_for_es2_rendering 42
          (enable_depth_test (enable_face_culling initialAsrState))).face_culling_enabled
            = false) := by
  decide

/-- C3 (amended).  `prepare_for_es2_rendering` (begin_session) resets
all three transform stacks to `[identity]` and records the
RenderingClock session start time; it leaves the depth-test and
face-culling state unchanged (they are disabled only as the initial
context default, not by this function). -/
theorem c3_begin_session_effects (now : Nat) (st : AsrState) :
    (prepare_for_es2_rendering now st).model_matrix_stack = [identity4] ∧
      (prepare_for_es2_rendering now st).view_matrix_stack = [identity4] ∧
      (prepare_for_es2_rendering now st).projection_matrix_stack = [identity4] ∧
      (prepare_for_es2_rendering now st).rendering_start_time = now ∧
      (prepare_for_es2_rendering now st).depth_test_enabled = st.depth_test_enabled ∧
      (prepare_for_es2_rendering now st).face_culling_enabled = st.face_culling_enabled := by
  have hdrain : ∀ l : List Mat4, drainStack l = [] := by
    intro l; induction l with
    | nil => rfl
    | cons m rest ih => simpa [drainStack] using ih
  unfold prepare_for_es2_rendering
  simp [hdrain]

/-- C5.  Geometry lifecycle is all-or-nothing: every geometry returned
by `generate_es2_gpu_geometry` has all three device handles nonzero,
and after `destroy_es2_gpu_geometry` all three handles are zero; the
two visible states are fully-constructed and fully-destroyed. -/
theorem c5_geometry_lifecycle (type : GeometryType) (vertices : List Vertex)
    (indices : List Nat) (st : AsrState) :
    ((generate_es2_gpu_geometry type vertices indices st).1.vertex_array_object ≠ 0 ∧
       (generate_es2_gpu_geometry type vertices indices st).1.vertex_buffer_object ≠ 0 ∧
       (generate_es2_gpu_geometry type vertices indices st).1.index_buffer_object ≠ 0) ∧
      (∀ g : GPUGeometry,
        (destroy_es2_gpu_geometry g).vertex_array_object = 0 ∧
          (destroy_es2_gpu_geometry g).vertex_buffer_object = 0 ∧
          (destroy_es2_gpu_geometry g).index_buffer_object = 0) := by
  refine ⟨⟨?_, ?_, ?_⟩, ?_⟩
  · simp [generate_es2_gpu_geometry]; omega
  · simp [generate_es2_gpu_geometry]; omega
  · simp [generate_es2_gpu_geometry]; omega
  · intro g; exact ⟨rfl, rfl, rfl⟩

/-- C6.  `render_current_es2_gpu_geometry` fails fast (the `assert`
fires, modelled as `none`) exactly when no geometry is selected; when a
geometry is selected the assertion never fires and a draw result is
produced. -/
theorem c6_draw_asserts_selection (st : AsrState) (now : Nat) :
    (st.current_gpu_geometry = none →
        render_current_es2_gpu_geometry now st = none) ∧
      (∀ g : GPUGeometry, st.current_gpu_geometry = some g →
        (render_current_es2_gpu_geometry now st).isSome) := by
  constructor
  · intro h
    unfold render_current_es2_gpu_geometry
    rw [h]
  · intro g h
    unfold render_current_es2_gpu_geometry
    rw [h]
    simp

/-- C6 witness: in the initial state nothing is selected and the draw
asserts; after selecting a concrete geometry it draws. -/
theorem c6_draw_asserts_selection_witness :
    render_current_es2_gpu_geometry 7 initialAsrState = none ∧
      (render_current_es2_gpu_geometry 7
        (set_es2_gpu_geometry_current
          (some ⟨GeometryType.Triangles, 3, 1, 2, 3⟩) initialAsrState)).isSome := by
  exact ⟨(c6_draw_asserts_selection initialAsrState 7).1 rfl,
    (c6_draw_asserts_selection
      (set_es2_gpu_geometry_current
        (some ⟨GeometryType.Triangles, 3, 1, 2, 3⟩) initialAsrState) 7).2
      ⟨GeometryType.Triangles, 3, 1, 2, 3⟩ rfl⟩

/-- C10.  `destroy_es2_shader_program` zeroes the program handle and
resets the position, colour and time uniform locations to the `-1`
sentinel, but leaves `mvp_matrix_uniform_location` unchanged; hence if
the MVP location was valid before destruction, a subsequent
`render_current_es2_gpu_geometry` (with a geometry selected) still
takes the MVP-uniform-present branch and writes through the stale
location. -/
theorem c10_destroy_shader_stale_mvp (st : AsrState) :
    (destroy_es2_shader_program st).shader_program = 0 ∧
      (destroy_es2_shader_program st).position_attribute_location = -1 ∧
      (destroy_es2_shader_program st).color_attribute_location = -1 ∧
      (destroy_es2_shader_program st).time_uniform_location = -1 ∧
      (destroy_es2_shader_program st).mvp_matrix_uniform_location
        = st.mvp_matrix_uniform_location ∧
      (st.mvp_matrix_uniform_location ≠ -1 →
        ∀ (now : Nat) (g : GPUGeometry), st.current_gpu_geometry = some g →
          render_current_es2_gpu_geometry now (destroy_es2_shader_program st)
            = some
              (⟨none,
                some (st.mvp_matrix_uniform_location,
                  computeMVP (destroy_es2_shader_program st)),
                g.type, g.vertex_count⟩,
               { destroy_es2_shader_program st with
                   color_buffer := BufferContent.drawn })) := by
  refine ⟨rfl, rfl, rfl, rfl, rfl, ?_⟩
  intro hmvp now g hg
  unfold render_current_es2_gpu_geometry
  have hgeo : (destroy_es2_shader_program st).current_gpu_geometry = some g := hg
  rw [hgeo]
  simp [destroy_es2_shader_program, hmvp, hg]

/-- C10 witness: a concrete state with a valid MVP location and a
selected geometry keeps writing MVP through the stale location after
shader destruction. -/
theorem c10_destroy_shader_stale_mvp_witness :
    render_current_es2_gpu_geometry 9
        (destroy_es2_shader_program
          { initialAsrState with
              mvp_matrix_uniform_location := 4
              current_gpu_geometry := some ⟨GeometryType.Points, 1, 1, 2, 3⟩ })
      = some
          (⟨none,
            some (4,
              computeMVP (destroy_es2_shader_program
                { initialAsrState with
                    mvp_matrix_uniform_location := 4
                    current_gpu_geometry := some ⟨GeometryType.Points, 1, 1, 2, 3⟩ })),
            GeometryType.Points, 1⟩,
           { destroy_es2_shader_program
               { initialAsrState with
                   mvp_matrix_uniform_location := 4
                   current_gpu_geometry := some ⟨GeometryType.Points, 1, 1, 2, 3⟩ } with
               color_buffer := BufferContent.drawn }) := by
  exact (c10_destroy_shader_stale_mvp
    { initialAsrState with
        mvp_matrix_uniform_location := 4
        current_gpu_geometry := some ⟨GeometryType.Points, 1, 1, 2, 3⟩ }).2.2.2.2.2
    (by decide) 9 ⟨GeometryType.Points, 1, 1, 2, 3⟩ rfl

/-- C8.  `load_orthographic_projection_matrix` replaces the current
stack top with the orthographic projection built from
`left = -(zoom·A)`, `right = zoom·A`, `bottom = -zoom`, `top = zoom`
(where `A` is the window aspect ratio), and in particular at aspect
ratio 1 with `zoom = 2` the bounds are `-2, 2, -2, 2`. -/
theorem c8_orthographic_symmetry (st : AsrState) (zoom n f : ℚ)
    (T : Mat4) (rest : List Mat4) (h : currentStack st = T :: rest) :
    currentStack (load_orthographic_projection_matrix zoom n f st)
      = glmOrtho (-(zoom * aspect st)) (zoom * aspect st) (-zoom) zoom n f :: rest ∧
      (st.window_width = st.window_height → st.window_width ≠ 0 → zoom = 2 →
        currentStack (load_orthographic_projection_matrix zoom n f st)
          = glmOrtho (-2) 2 (-2) 2 n f :: rest) := by
  have hmain :
      currentStack (load_orthographic_projection_matrix zoom n f st)
        = glmOrtho (-(zoom * aspect st)) (zoom * aspect st) (-zoom) zoom n f :: rest := by
    unfold load_orthographic_projection_matrix load_matrix replaceTop
    rw [h]
    simp [currentStack_setCurrentStack]
  refine ⟨hmain, ?_⟩
  intro hsq hnz hz
  have ha : aspect st = 1 := by
    unfold aspect
    rw [hsq]
    exact div_self (Int.cast_ne_zero.mpr (hsq ▸ hnz))
  rw [hmain, ha, hz]
  norm_num

/-- C8 witness: post-session state (500×500 window, aspect 1), zoom 2. -/
theorem c8_orthographic_symmetry_witness :
    currentStack (load_orthographic_projection_matrix 2 (1 / 10) 100
        (prepare_for_es2_rendering 0 initialAsrState))
      = glmOrtho (-2) 2 (-2) 2 (1 / 10) 100 :: [] := by
  exact (c8_orthographic_symmetry (prepare_for_es2_rendering 0 initialAsrState)
    2 (1 / 10) 100 identity4 [] rfl).2 rfl (by decide) rfl

/-!  Matrix identities needed for the MVP and rotation claims.  -/

lemma identity4_mul (m : Mat4) : identity4.mul m = m := by
  obtain ⟨⟨a0, a1, a2, a3⟩, ⟨b0, b1, b2, b3⟩, ⟨e0, e1, e2, e3⟩, ⟨d0, d1, d2, d3⟩⟩ := m
  simp only [Mat4.mul, Mat4.app, Vec4.smul, Vec4.add, identity4]
  congr 1 <;> congr 1 <;> ring

lemma glmInverse_identity4 : glmInverse identity4 = identity4 := by
  simp only [glmInverse, Mat4.det, Mat4.minor, Mat4.e, cofSign, identity4]
  norm_num
  decide

/-- C2.  When the MVP uniform is exposed (location ≠ -1) and a geometry
is selected, the draw writes the MVP uniform with
`Projection.top() * inverse(View.top()) * Model.top()`; and whenever the
view and projection tops are both the identity, the computed MVP equals
the model top exactly. -/
theorem c2_mvp_composition (st : AsrState) (now : Nat) (g : GPUGeometry)
    (hg : st.current_gpu_geometry = some g)
    (hmvp : st.mvp_matrix_uniform_location ≠ -1) :
    (∃ (info : DrawInfo) (st2 : AsrState),
        render_current_es2_gpu_geometry now st = some (info, st2) ∧
          info.mvp_write = some (st.mvp_matrix_uniform_location,
            (st.projection_matrix_stack.headI.mul
              (glmInverse st.view_matrix_stack.headI)).mul
              st.model_matrix_stack.headI)) ∧
      (st.view_matrix_stack.headI = identity4 →
        st.projection_matrix_stack.headI = identity4 →
        computeMVP st = st.model_matrix_stack.headI) := by
  constructor
  · unfold render_current_es2_gpu_geometry
    rw [hg]
    refine ⟨_, _, rfl, ?_⟩
    rw [if_pos hmvp]
    rfl
  · intro hv hp
    simp only [computeMVP]
    rw [hv, hp, glmInverse_identity4, identity4_mul, identity4_mul]

/-- C2 witness: post-session state (all tops identity) with a geometry
selected and MVP location 5: the uniform write carries exactly the
model top. -/
theorem c2_mvp_composition_witness :
    (∃ (info : DrawInfo) (st2 : AsrState),
        render_current_es2_gpu_geometry 3
            (set_es2_gpu_geometry_current (some ⟨GeometryType.Triangles, 3, 1, 2, 3⟩)
              (prepare_for_es2_rendering 0
                { initialAsrState with mvp_matrix_uniform_location := 5 }))
          = some (info, st2) ∧
          info.mvp_write = some (5, (identity4.mul (glmInverse identity4)).mul identity4)) ∧
      computeMVP
          (set_es2_gpu_geometry_current (some ⟨GeometryType.Triangles, 3, 1, 2, 3⟩)
            (prepare_for_es2_rendering 0
              { initialAsrState with mvp_matrix_uniform_location := 5 }))
        = identity4 := by
  have h := c2_mvp_composition
    (set_es2_gpu_geometry_current (some ⟨GeometryType.Triangles, 3, 1, 2, 3⟩)
      (prepare_for_es2_rendering 0
        { initialAsrState with mvp_matrix_uniform_location := 5 }))
    3 ⟨GeometryType.Triangles, 3, 1, 2, 3⟩ rfl (by decide)
  exact ⟨h.1, h.2 rfl rfl⟩

/-!  Spec-side rotation matrices: the standard yaw (Y axis), pitch
(X axis) and roll (Z axis) rotation matrices, with `(c, s)` standing
for `(cos θ, sin θ)`, stored column-major.  -/

/-- Yaw: rotation about the Y axis. -/
def rotYMat (c s : ℚ) : Mat4 :=
  ⟨⟨c, 0, -s, 0⟩, ⟨0, 1, 0, 0⟩, ⟨s, 0, c, 0⟩, ⟨0, 0, 0, 1⟩⟩

/-- Pitch: rotation about the X axis. -/
def rotXMat (c s : ℚ) : Mat4 :=
  ⟨⟨1, 0, 0, 0⟩, ⟨0, c, s, 0⟩, ⟨0, -s, c, 0⟩, ⟨0, 0, 0, 1⟩⟩

/-- Roll: rotation about the Z axis. -/
def rotZMat (c s : ℚ) : Mat4 :=
  ⟨⟨c, s, 0, 0⟩, ⟨-s, c, 0, 0⟩, ⟨0, 0, 1, 0⟩, ⟨0, 0, 0, 1⟩⟩

lemma glmRotate_unitY (m : Mat4) (c s : ℚ) :
    glmRotate m c s ⟨0, 1, 0⟩ = m.mul (rotYMat c s) := by
  obtain ⟨⟨a0, a1, a2, a3⟩, ⟨b0, b1, b2, b3⟩, ⟨e0, e1, e2, e3⟩, ⟨d0, d1, d2, d3⟩⟩ := m
  simp only [glmRotate, Mat4.mul, Mat4.app, Vec4.smul, Vec4.add, rotYMat]
  congr 1 <;> congr 1 <;> ring

lemma glmRotate_unitX (m : Mat4) (c s : ℚ) :
    glmRotate m c s ⟨1, 0, 0⟩ = m.mul (rotXMat c s) := by
  obtain ⟨⟨a0, a1, a2, a3⟩, ⟨b0, b1, b2, b3⟩, ⟨e0, e1, e2, e3⟩, ⟨d0, d1, d2, d3⟩⟩ := m
  simp only [glmRotate, Mat4.mul, Mat4.app, Vec4.smul, Vec4.add, rotXMat]
  congr 1 <;> congr 1 <;> ring

lemma glmRotate_unitZ (m : Mat4) (c s : ℚ) :
    glmRotate m c s ⟨0, 0, 1⟩ = m.mul (rotZMat c s) := by
  obtain ⟨⟨a0, a1, a2, a3⟩, ⟨b0, b1, b2, b3⟩, ⟨e0, e1, e2, e3⟩, ⟨d0, d1, d2, d3⟩⟩ := m
  simp only [glmRotate, Mat4.mul, Mat4.app, Vec4.smul, Vec4.add, rotZMat]
  congr 1 <;> congr 1 <;> ring

/-- C4.  `rotate_matrix` replaces the current top `T` with
`T * Ry(y) * Rx(x) * Rz(z)`: the yaw rotation is right-multiplied
first, then pitch, then roll, in that fixed order (each angle given by
its `(cos, sin)` pair). -/
theorem c4_rotation_composition_order (st : AsrState)
    (cx sx cy sy cz sz : ℚ) (T : Mat4) (rest : List Mat4)
    (h : currentStack st = T :: rest) :
    currentStack (rotate_matrix cx sx cy sy cz sz st)
      = ((T.mul (rotYMat cy sy)).mul (rotXMat cx sx)).mul (rotZMat cz sz) :: rest := by
  unfold rotate_matrix replaceTop
  rw [h]
  simp [currentStack_setCurrentStack, glmRotate_unitY, glmRotate_unitX, glmRotate_unitZ]

/-- C4 witness: rotating the post-session identity top by concrete
`(cos, sin)` pairs. -/
theorem c4_rotation_composition_order_witness :
    currentStack
        (rotate_matrix 1 2 3 4 5 6 (prepare_for_es2_rendering 0 initialAsrState))
      = ((identity4.mul (rotYMat 3 4)).mul (rotXMat 1 2)).mul (rotZMat 5 6) :: [] := by
  exact c4_rotation_composition_order (prepare_for_es2_rendering 0 initialAsrState)
    1 2 3 4 5 6 identity4 [] rfl

end Asr
